import Mathlib

/-
  Verification development for the nmea_navsat_driver repository
  (src/libnmea_navsat_driver/parser.py and src/libnmea_navsat_driver/driver.py).

  Shallow embedding conventions:
  * Python floats are modelled as `Option ℚ` (`PFloat`); `none` stands for NaN
    (absent/unparseable), and arithmetic propagates NaN.  The binary rounding of
    IEEE doubles is idealised away; every numeric literal of the source is kept
    exactly as written.
  * `math.radians`, `math.sin` and `math.cos` are treated as abstract functions
    supplied by the environment `PyEnv` (they are the only transcendental
    library calls of the source).
  * `time.gmtime()` is modelled by the field `gmDateEpoch` of `PyEnv`: the epoch
    second of UTC midnight of the current day, so that
    `calendar.timegm` of the structure with hour/minute/second replaced equals
    `gmDateEpoch + 3600*h + 60*m + s`.
  * Python exceptions are modelled with `Except PyErr`; a Python function that
    can raise returns in this monad, and `add_sentence` propagates errors
    exactly where the source has no try/except.
-/

/-- PFloat models a Python float; `none` is NaN. -/
def PFloat : Type := Option ℚ

instance : DecidableEq PFloat := by unfold PFloat; infer_instance

instance : Repr PFloat := by unfold PFloat; infer_instance

/-- NaN-propagating addition of Python floats. -/
def pf_add : PFloat → PFloat → PFloat
  | some a, some b => some (a + b)
  | _, _ => none

/-- NaN-propagating multiplication of Python floats. -/
def pf_mul : PFloat → PFloat → PFloat
  | some a, some b => some (a * b)
  | _, _ => none

/-- Negation of a Python float (NaN stays NaN). -/
def pf_neg : PFloat → PFloat
  | some a => some (-a)
  | none => none

/-- Multiplication by a numeric literal (NaN stays NaN). -/
def pf_mul_const (x : PFloat) (c : ℚ) : PFloat :=
  match x with
  | some a => some (a * c)
  | none => none

/-- Division by a numeric literal (NaN stays NaN). -/
def pf_div_const (x : PFloat) (c : ℚ) : PFloat :=
  match x with
  | some a => some (a / c)
  | none => none

/-- math.isnan on the float model. -/
def pf_isnan : PFloat → Bool
  | some _ => false
  | none => true

/-- Python truthiness of a float: 0.0 is falsy, every other float —
including NaN — is truthy. -/
def pf_truthy : PFloat → Bool
  | some q => q != 0
  | none => true

/-- Numeric value of a list of decimal digit characters. -/
def digitsVal (cs : List Char) : ℕ :=
  cs.foldl (fun a c => a * 10 + (c.toNat - 48)) 0

/-- Whitespace characters Python's int()/float() strip. -/
def isPySpace (c : Char) : Bool :=
  c == ' ' || c == '\t' || c == '\n' || c == '\r' || c == '\x0b' || c == '\x0c'

/-- Strip leading and trailing whitespace from a character list. -/
def stripWs (cs : List Char) : List Char :=
  ((cs.dropWhile isPySpace).reverse.dropWhile isPySpace).reverse

/-- Python s.split(','): cut a character list at every comma, keeping empty
pieces. -/
def splitCommas : List Char → List (List Char)
  | [] => [[]]
  | c :: rest =>
    if c = ',' then [] :: splitCommas rest
    else
      match splitCommas rest with
      | [] => [[c]]
      | g :: gs => (c :: g) :: gs

/-- Python slice s[n:]. -/
def pyDrop (s : String) (n : Nat) : String := (s.toList.drop n).asString

/-- Python's `int(s)`: optional whitespace, optional sign, nonempty digit
string; `none` models a raised ValueError. -/
def pyint? (s : String) : Option ℤ :=
  let cs := stripWs s.toList
  match cs with
  | '-' :: ds => if ds ≠ [] ∧ ds.all Char.isDigit then some (-(digitsVal ds : ℤ)) else none
  | '+' :: ds => if ds ≠ [] ∧ ds.all Char.isDigit then some ((digitsVal ds : ℤ)) else none
  | ds => if ds ≠ [] ∧ ds.all Char.isDigit then some ((digitsVal ds : ℤ)) else none

/-- Python's `float(s)` restricted to the decimal forms that occur in NMEA
tokens: optional sign, digits with at most one decimal point, at least one
digit.  `none` models a raised ValueError (and also the literal "nan",
which `safe_float` maps to NaN anyway). -/
def pyfloat? (s : String) : Option ℚ :=
  let cs := stripWs s.toList
  let core : List Char → Option ℚ := fun ds =>
    let intPart := ds.takeWhile (fun c => c != '.')
    let rest := ds.dropWhile (fun c => c != '.')
    match rest with
    | [] => if ds ≠ [] ∧ ds.all Char.isDigit then some ((digitsVal ds : ℚ)) else none
    | _ :: frac =>
      if (intPart ≠ [] ∨ frac ≠ []) ∧ intPart.all Char.isDigit ∧ frac.all Char.isDigit then
        some ((digitsVal intPart : ℚ) + (digitsVal frac : ℚ) / (10 : ℚ) ^ frac.length)
      else none
  match cs with
  | '-' :: ds => (core ds).map (fun q => -q)
  | '+' :: ds => core ds
  | ds => core ds

/-- parser.safe_float: float(field), ValueError caught and turned into NaN. -/
def safe_float (field : String) : PFloat := pyfloat? field

/-- parser.safe_int: int(field), ValueError caught and turned into 0. -/
def safe_int (field : String) : ℤ := (pyint? field).getD 0

/-- Python slice s[a:b] (0 ≤ a ≤ b). -/
def pySlice (s : String) (a b : Nat) : String := ((s.toList.drop a).take (b - a)).asString

/-- parser.convert_latitude: field[0:2] degrees + field[2:] minutes / 60. -/
def convert_latitude (field : String) : PFloat :=
  pf_add (safe_float (pySlice field 0 2)) (pf_div_const (safe_float (pyDrop field 2)) 60)

/-- parser.convert_longitude: field[0:3] degrees + field[3:] minutes / 60. -/
def convert_longitude (field : String) : PFloat :=
  pf_add (safe_float (pySlice field 0 3)) (pf_div_const (safe_float (pyDrop field 3)) 60)

/-- Environment supplying the library functions and ambient clock values the
source reads: math.radians, math.sin, math.cos, the date part of
time.gmtime() (as the epoch second of UTC midnight of the current day), and
rospy.get_rostime(). -/
structure PyEnv where
  rads : PFloat → PFloat
  sinF : PFloat → PFloat
  cosF : PFloat → PFloat
  gmDateEpoch : ℤ
  rostime : ℤ

/-- Python exceptions that the source can raise. -/
inductive PyErr where
  | valueError
  | indexError
  | nameError
deriving DecidableEq, Repr

/-- parser.convert_time: NaN when one of the three 2-digit groups of the
time-of-day token is empty; otherwise calendar.timegm of the current UTC
date with hour/minute/second replaced by the decoded groups.  The bare
`int(...)` calls raise ValueError on non-numeric group text. -/
def convert_time (env : PyEnv) (nmea_utc : String) : Except PyErr PFloat :=
  if pySlice nmea_utc 0 2 = "" ∨ pySlice nmea_utc 2 4 = "" ∨ pySlice nmea_utc 4 6 = "" then
    .ok none
  else
    match pyint? (pySlice nmea_utc 0 2), pyint? (pySlice nmea_utc 2 4),
        pyint? (pySlice nmea_utc 4 6) with
    | some hours, some minutes, some seconds =>
        .ok (some ((env.gmDateEpoch + hours * 3600 + minutes * 60 + seconds : ℤ) : ℚ))
    | _, _, _ => .error .valueError

/-- parser.convert_status_flag: "A" is true, "V" and everything else false. -/
def convert_status_flag (status_flag : String) : Bool :=
  if status_flag = "A" then true
  else if status_flag = "V" then false
  else false

/-- parser.convert_knots_to_mps: safe_float(knots) * 0.514444444444. -/
def convert_knots_to_mps (knots : String) : PFloat :=
  pf_mul_const (safe_float knots) (0.514444444444 : ℚ)

/-- parser.convert_deg_to_rads: math.radians(safe_float(degs)). -/
def convert_deg_to_rads (env : PyEnv) (degs : String) : PFloat :=
  env.rads (safe_float degs)

/-- Heterogeneous Python value stored in a parsed-sentence dict. -/
inductive PyVal where
  | f (x : PFloat)
  | i (n : ℤ)
  | s (t : String)
  | b (v : Bool)
deriving DecidableEq, Repr

/-- Dict produced by parse_nmea_sentence for one sentence (insertion order kept). -/
def PyDict : Type := List (String × PyVal)

instance : DecidableEq PyDict := by unfold PyDict; infer_instance

instance : Membership (String × PyVal) PyDict := by unfold PyDict; infer_instance

/-- A parse-map entry: field name, conversion function and index into the
split sentence, exactly as in parser.parse_maps. -/
def FieldEntry : Type := String × (String → Except PyErr PyVal) × ℕ

/-- safe_float as a table entry. -/
def cFloat : String → Except PyErr PyVal := fun t => .ok (.f (safe_float t))

/-- safe_int as a table entry. -/
def cInt : String → Except PyErr PyVal := fun t => .ok (.i (safe_int t))

/-- str as a table entry. -/
def cStr : String → Except PyErr PyVal := fun t => .ok (.s t)

/-- convert_latitude as a table entry. -/
def cLat : String → Except PyErr PyVal := fun t => .ok (.f (convert_latitude t))

/-- convert_longitude as a table entry. -/
def cLon : String → Except PyErr PyVal := fun t => .ok (.f (convert_longitude t))

/-- convert_time as a table entry (it can raise ValueError). -/
def cTime (env : PyEnv) : String → Except PyErr PyVal :=
  fun t => (convert_time env t).map (fun x => .f x)

/-- convert_status_flag as a table entry. -/
def cBool : String → Except PyErr PyVal := fun t => .ok (.b (convert_status_flag t))

/-- convert_knots_to_mps as a table entry. -/
def cKnots : String → Except PyErr PyVal := fun t => .ok (.f (convert_knots_to_mps t))

/-- convert_deg_to_rads as a table entry. -/
def cRads (env : PyEnv) : String → Except PyErr PyVal :=
  fun t => .ok (.f (convert_deg_to_rads env t))

/-- parse_maps["GGA"]. -/
def ggaMap (env : PyEnv) : List FieldEntry :=
  [("fix_type", cInt, 6),
   ("latitude", cLat, 2),
   ("latitude_direction", cStr, 3),
   ("longitude", cLon, 4),
   ("longitude_direction", cStr, 5),
   ("altitude", cFloat, 9),
   ("mean_sea_level", cFloat, 11),
   ("hdop", cFloat, 8),
   ("num_satellites", cInt, 7),
   ("utc_time", cTime env, 1)]

/-- parse_maps["VTG"]. -/
def vtgMap : List FieldEntry :=
  [("speed_knots", cFloat, 5),
   ("speed_kph", cFloat, 7),
   ("mode", cStr, 9)]

/-- parse_maps["PJT"]. -/
def pjtMap : List FieldEntry :=
  [("coordinate_system", cStr, 1),
   ("project_name", cStr, 2)]

/-- parse_maps["AVR"]. -/
def avrMap : List FieldEntry :=
  [("yaw", cFloat, 2),
   ("pitch", cFloat, 4),
   ("roll", cFloat, 6),
   ("fix_type", cInt, 9),
   ("PDOP", cInt, 20),
   ("num_satellites", cInt, 11)]

/-- parse_maps["HDT"]. -/
def hdtMap : List FieldEntry :=
  [("heading_north", cFloat, 1)]

/-- parse_maps["ROT"]. -/
def rotMap : List FieldEntry :=
  [("rate", cInt, 1),
   ("validity", cStr, 2)]

/-- parse_maps["RMC"]. -/
def rmcMap (env : PyEnv) : List FieldEntry :=
  [("utc_time", cTime env, 1),
   ("fix_valid", cBool, 2),
   ("latitude", cLat, 3),
   ("latitude_direction", cStr, 4),
   ("longitude", cLon, 5),
   ("longitude_direction", cStr, 6),
   ("speed", cKnots, 7),
   ("true_course", cRads env, 8)]

/-- parse_maps["LLQ"]. -/
def llqMap (env : PyEnv) : List FieldEntry :=
  [("easting", cFloat, 3),
   ("northing", cFloat, 5),
   ("fix_type", cInt, 7),
   ("position_quality", cFloat, 9),
   ("height", cFloat, 10),
   ("utc_time", cTime env, 1)]

/-- parser.parse_maps, in source order. -/
def parse_maps (env : PyEnv) : List (String × List FieldEntry) :=
  [("GGA", ggaMap env),
   ("VTG", vtgMap),
   ("PJT", pjtMap),
   ("AVR", avrMap),
   ("HDT", hdtMap),
   ("ROT", rotMap),
   ("RMC", rmcMap env),
   ("LLQ", llqMap env)]

/-- Python str.strip(',') on a token. -/
def strip_commas (s : String) : String :=
  (((s.toList.dropWhile fun c => c == ',').reverse.dropWhile fun c => c == ',').reverse).asString

/-- The token list of a sentence: nmea_sentence.split(',') with each token
stripped of commas, as in parse_nmea_sentence. -/
def pyFields (s : String) : List String :=
  (splitCommas s.toList).map (fun cs => strip_commas cs.asString)

/-- Python str.find: lowest index at which the substring occurs, else -1. -/
def py_find (s sub : String) : ℤ :=
  match (List.range (s.toList.length + 1)).find?
      (fun i => (s.toList.drop i).take sub.toList.length == sub.toList) with
  | some i => (i : ℤ)
  | none => -1

/-- Character class [0-9A-Fa-f]. -/
def isHexDigitChar (c : Char) : Bool :=
  c.isDigit || ('A' ≤ c && c ≤ 'F') || ('a' ≤ c && c ≤ 'f')

/-- Tail of the sentence regexes: `.*\*[0-9A-Fa-f]{2}$`, with `.` not matching
a newline and `$` also matching just before a single trailing newline. -/
def tail_star_hex (r : List Char) : Bool :=
  match r.reverse with
  | '\n' :: h2 :: h1 :: '*' :: mid =>
      isHexDigitChar h1 && isHexDigitChar h2 && mid.all (fun c => c != '\n')
  | h2 :: h1 :: '*' :: mid =>
      isHexDigitChar h1 && isHexDigitChar h2 && mid.all (fun c => c != '\n')
  | _ => false

/-- re.match of the envelope regex `^\$(GP|GN|PTNL).*\*[0-9A-Fa-f]{2}$`. -/
def regex_match_main (s : String) : Bool :=
  match s.toList with
  | '$' :: t =>
    if t.take 2 = ['G', 'P'] ∨ t.take 2 = ['G', 'N'] then tail_star_hex (t.drop 2)
    else if t.take 4 = ['P', 'T', 'N', 'L'] then tail_star_hex (t.drop 4)
    else false
  | _ => false

/-- re.match of the proprietary regex `^\$(PTNL).*\*[0-9A-Fa-f]{2}$`. -/
def regex_match_ptnl (s : String) : Bool :=
  match s.toList with
  | '$' :: t =>
    if t.take 4 = ['P', 'T', 'N', 'L'] then tail_star_hex (t.drop 4)
    else false
  | _ => false

/-- Sentence-type determination of parse_nmea_sentence: for a PTNL sentence,
`if fields[0].find("PTNLDG"):` (Python truthiness: any value other than 0,
including -1, takes the branch) selects "DG", otherwise fields[0][5:];
for a standard talker, fields[0][3:]. -/
def classify_type (s : String) : String :=
  let fields := pyFields s
  let f0 := fields.headD ""
  if regex_match_ptnl s then
    if py_find f0 "PTNLDG" ≠ 0 then "DG" else pyDrop f0 5
  else pyDrop f0 3

/-- The per-entry extraction loop of parse_nmea_sentence:
`parsed_sentence[entry[0]] = entry[1](fields[entry[2]])`.  An index beyond
the token list raises IndexError (the source is unguarded here), and a
converter can raise (convert_time's bare int calls). -/
def decode_fields (fields : List String) : List FieldEntry → Except PyErr PyDict
  | [] => .ok []
  | e :: rest =>
    match fields.get? e.2.2 with
    | none => .error .indexError
    | some tok =>
      match e.2.1 tok with
      | .error err => .error err
      | .ok v =>
        match decode_fields fields rest with
        | .error err => .error err
        | .ok d => .ok ((e.1, v) :: d)

/-- parser.parse_nmea_sentence: `.ok none` models `return False`,
`.ok (some (t, d))` models `return {t: d}`, `.error` models an uncaught
exception. -/
def parse_nmea_sentence (env : PyEnv) (nmea_sentence : String) :
    Except PyErr (Option (String × PyDict)) :=
  if regex_match_main nmea_sentence = false then .ok none
  else
    match (parse_maps env).lookup (classify_type nmea_sentence) with
    | none => .ok none
    | some pm =>
      match decode_fields (pyFields nmea_sentence) pm with
      | .error e => .error e
      | .ok d => .ok (some (classify_type nmea_sentence, d))

/-- Hex digit character of a nibble, uppercase (as "%02X" renders). -/
def hexDigitChar (n : ℕ) : Char :=
  if n < 10 then Char.ofNat (48 + n) else Char.ofNat (55 + n)

/-- Modelled from the spec: the ChecksumValidator of §4.1 (its source file,
libnmea_navsat_driver/checksum_utils.py, is not under src/).  It computes the
bitwise XOR of every byte strictly between `$` and `*`, renders it as two
uppercase hex digits, and compares case-insensitively with the two hex digits
following `*`; it returns false, never raising, on malformed input lacking
both delimiters. -/
def check_nmea_checksum (nmea_sentence : String) : Bool :=
  let cs := nmea_sentence.toList
  if cs.head? = some '$' ∧ cs.contains '*' then
    let afterDollar := cs.drop 1
    let body := afterDollar.takeWhile fun c => c != '*'
    let transmitted := (afterDollar.dropWhile fun c => c != '*').drop 1
    let x := body.foldl (fun a c => a ^^^ c.toNat) 0
    [hexDigitChar ((x / 16) % 16), hexDigitChar (x % 16)] == (transmitted.take 2).map Char.toUpper
  else false

/-- NavSatStatus.STATUS_NO_FIX. -/
def STATUS_NO_FIX : ℤ := -1

/-- NavSatStatus.STATUS_FIX. -/
def STATUS_FIX : ℤ := 0

/-- NavSatStatus.STATUS_SBAS_FIX. -/
def STATUS_SBAS_FIX : ℤ := 1

/-- NavSatStatus.STATUS_GBAS_FIX. -/
def STATUS_GBAS_FIX : ℤ := 2

/-- NavSatStatus.SERVICE_GPS. -/
def SERVICE_GPS : ℤ := 1

/-- NavSatFix.COVARIANCE_TYPE_UNKNOWN. -/
def COVARIANCE_TYPE_UNKNOWN : ℤ := 0

/-- NavSatFix.COVARIANCE_TYPE_APPROXIMATED. -/
def COVARIANCE_TYPE_APPROXIMATED : ℤ := 1

/-- sensor_msgs NavSatFix restricted to the fields the driver sets (of the
3×3 covariance only the diagonal entries 0, 4, 8 are ever written). -/
structure NavSatFixMsg where
  stamp : ℤ
  frame_id : String
  status : ℤ
  service : ℤ
  latitude : PFloat
  longitude : PFloat
  altitude : PFloat
  cov0 : PFloat
  cov4 : PFloat
  cov8 : PFloat
  position_covariance_type : ℤ
deriving DecidableEq, Repr

/-- sensor_msgs TimeReference. -/
structure TimeReferenceMsg where
  stamp : ℤ
  frame_id : String
  source : String
  time_ref : PFloat
deriving DecidableEq, Repr

/-- geometry_msgs Vector3Stamped. -/
structure Vector3StampedMsg where
  stamp : ℤ
  frame_id : String
  x : PFloat
  y : PFloat
  z : PFloat
deriving DecidableEq, Repr

/-- geometry_msgs TwistStamped. -/
structure TwistStampedMsg where
  stamp : ℤ
  frame_id : String
  lin_x : PFloat
  lin_y : PFloat
  lin_z : PFloat
  ang_x : PFloat
  ang_y : PFloat
  ang_z : PFloat
deriving DecidableEq, Repr

/-- Everything one add_sentence call publishes, one list per publisher
(fix, time_reference, vel, vel_local, hdt, rot, speed, pyr). -/
structure Output where
  fix : List NavSatFixMsg
  time_ref : List TimeReferenceMsg
  vel : List Vector3StampedMsg
  vel_local : List TwistStampedMsg
  hdt : List PFloat
  rot : List TwistStampedMsg
  speed : List TwistStampedMsg
  pyr : List TwistStampedMsg
deriving DecidableEq, Repr

/-- No publications. -/
def Output.empty : Output := ⟨[], [], [], [], [], [], [], []⟩

/-- Driver configuration: the ~time_ref_source parameter (None by default)
and the ~useRMC flag (False by default). -/
structure Config where
  time_ref_source : Option String
  use_RMC : Bool
deriving DecidableEq, Repr

/-- Float field of a parsed dict (the parse maps guarantee the key exists
with a float value wherever the driver reads one). -/
def getF (d : PyDict) (k : String) : PFloat :=
  match List.lookup k d with
  | some (.f x) => x
  | _ => none

/-- Integer field of a parsed dict. -/
def getI (d : PyDict) (k : String) : ℤ :=
  match List.lookup k d with
  | some (.i n) => n
  | _ => 0

/-- String field of a parsed dict. -/
def getS (d : PyDict) (k : String) : String :=
  match List.lookup k d with
  | some (.s t) => t
  | _ => ""

/-- Boolean field of a parsed dict. -/
def getB (d : PyDict) (k : String) : Bool :=
  match List.lookup k d with
  | some (.b v) => v
  | _ => false

/-- NavSatFix() defaults with header stamp and frame_id filled in, as built
before the branch dispatch. -/
def default_fix (ct : ℤ) (frame_id : String) : NavSatFixMsg :=
  ⟨ct, frame_id, 0, 0, some 0, some 0, some 0, some 0, some 0, some 0, 0⟩

/-- TwistStamped() defaults with header stamp and frame_id filled in. -/
def default_twist (ct : ℤ) (frame_id : String) : TwistStampedMsg :=
  ⟨ct, frame_id, some 0, some 0, some 0, some 0, some 0, some 0⟩

/-- The current_time_ref message prepared before the branch dispatch; its
source is self.time_ref_source when that is truthy, else the frame_id. -/
def make_time_ref (cfg : Config) (ct : ℤ) (frame_id : String) : TimeReferenceMsg :=
  { stamp := ct
    frame_id := frame_id
    source := match cfg.time_ref_source with
              | some src => if src ≠ "" then src else frame_id
              | none => frame_id
    time_ref := some 0 }

/-- The GGA branch of add_sentence: fix-quality mapping, hemisphere signs,
HDOP-based approximated covariance, geoid-adjusted altitude, fix publish,
and a time-reference publish gated on math.isnan. -/
def gga_output (cfg : Config) (data : PyDict) (ct : ℤ) (frame_id : String) : Output :=
  let gps_qual := getI data "fix_type"
  let status : ℤ :=
    if gps_qual = 0 then STATUS_NO_FIX
    else if gps_qual = 1 then STATUS_FIX
    else if gps_qual = 2 then STATUS_SBAS_FIX
    else if gps_qual = 4 ∨ gps_qual = 5 then STATUS_GBAS_FIX
    else if gps_qual = 9 then STATUS_SBAS_FIX
    else STATUS_NO_FIX
  let latitude :=
    if getS data "latitude_direction" = "S" then pf_neg (getF data "latitude")
    else getF data "latitude"
  let longitude :=
    if getS data "longitude_direction" = "W" then pf_neg (getF data "longitude")
    else getF data "longitude"
  let hdop := getF data "hdop"
  let current_fix :=
    { default_fix ct frame_id with
      status := status
      service := SERVICE_GPS
      latitude := latitude
      longitude := longitude
      cov0 := pf_mul hdop hdop
      cov4 := pf_mul hdop hdop
      cov8 := pf_mul (pf_mul_const hdop 2) (pf_mul_const hdop 2)
      position_covariance_type := COVARIANCE_TYPE_APPROXIMATED
      altitude := pf_add (getF data "altitude") (getF data "mean_sea_level") }
  let base : Output := { Output.empty with fix := [current_fix] }
  if pf_isnan (getF data "utc_time") = false then
    { base with time_ref := [{ make_time_ref cfg ct frame_id with time_ref := getF data "utc_time" }] }
  else base

/-- The RMC branch of add_sentence: a fix (and gated time reference) only
under the use_RMC flag, and velocity records whenever the validity flag is
true, regardless of that flag. -/
def rmc_output (env : PyEnv) (cfg : Config) (data : PyDict) (ct : ℤ) (frame_id : String) :
    Output :=
  let base : Output :=
    if cfg.use_RMC then
      let current_fix :=
        { default_fix ct frame_id with
          status := if getB data "fix_valid" then STATUS_FIX else STATUS_NO_FIX
          service := SERVICE_GPS
          latitude :=
            if getS data "latitude_direction" = "S" then pf_neg (getF data "latitude")
            else getF data "latitude"
          longitude :=
            if getS data "longitude_direction" = "W" then pf_neg (getF data "longitude")
            else getF data "longitude"
          altitude := none
          position_covariance_type := COVARIANCE_TYPE_UNKNOWN }
      let o : Output := { Output.empty with fix := [current_fix] }
      if pf_isnan (getF data "utc_time") = false then
        { o with time_ref := [{ make_time_ref cfg ct frame_id with time_ref := getF data "utc_time" }] }
      else o
    else Output.empty
  if getB data "fix_valid" then
    { base with
      vel := [⟨ct, frame_id,
               pf_mul (getF data "speed") (env.sinF (getF data "true_course")),
               pf_mul (getF data "speed") (env.cosF (getF data "true_course")),
               some 0⟩]
      vel_local := [{ default_twist ct frame_id with lin_x := getF data "speed" }] }
  else base

/-- The HDT branch: the publish is gated on the Python truthiness of the
heading value, so a heading of exactly 0.0 is not published. -/
def hdt_output (data : PyDict) : Output :=
  if pf_truthy (getF data "heading_north") then
    { Output.empty with hdt := [getF data "heading_north"] }
  else Output.empty

/-- The ROT branch: angular.z = rate * 3.14 / 180 * 60, published
unconditionally (the decoded validity field is not consulted). -/
def rot_output (data : PyDict) (ct : ℤ) (frame_id : String) : Output :=
  { Output.empty with
    rot := [{ default_twist ct frame_id with
              ang_z := some (((getI data "rate" : ℤ) : ℚ) * (3.14 : ℚ) / 180 * 60) }] }

/-- The VTG branch: linear.x = speed_kph / 360 * 1000. -/
def vtg_output (data : PyDict) (ct : ℤ) (frame_id : String) : Output :=
  { Output.empty with
    speed := [{ default_twist ct frame_id with
                lin_x := match getF data "speed_kph" with
                         | some q => some (q / 360 * 1000)
                         | none => none }] }

/-- The elif chain of add_sentence after a successful parse.  The AVR branch
raises NameError: its first statement reads the undefined name
current_timecur.  The final else models `return False`; every completed
branch falls off the method, so the Python result is None. -/
def translate_sentence (env : PyEnv) (cfg : Config) (stype : String) (data : PyDict)
    (ct : ℤ) (frame_id : String) : Except PyErr (Option Bool × Output) :=
  if cfg.use_RMC = false ∧ stype = "GGA" then .ok (none, gga_output cfg data ct frame_id)
  else if stype = "RMC" then .ok (none, rmc_output env cfg data ct frame_id)
  else if stype = "HDT" then .ok (none, hdt_output data)
  else if stype = "ROT" then .ok (none, rot_output data ct frame_id)
  else if stype = "VTG" then .ok (none, vtg_output data ct frame_id)
  else if stype = "AVR" then .error .nameError
  else .ok (some false, Output.empty)

/-- driver.RosNMEADriver.add_sentence: checksum gate, parse, then the
per-type translation.  `.ok (some false, out)` models `return False`,
`.ok (none, out)` models falling off the method (None); a raised exception
propagates to the caller unchanged. -/
def add_sentence (env : PyEnv) (cfg : Config) (nmea_string frame_id : String)
    (timestamp : Option ℤ) : Except PyErr (Option Bool × Output) :=
  if check_nmea_checksum nmea_string = false then .ok (some false, Output.empty)
  else
    match parse_nmea_sentence env nmea_string with
    | .error e => .error e
    | .ok none => .ok (some false, Output.empty)
    | .ok (some (stype, data)) =>
      translate_sentence env cfg stype data
        (match timestamp with | some t => t | none => env.rostime) frame_id

/-- Once the checksum holds and the parse produced a sentence dict, the
driver call is exactly the per-type translation with the effective
timestamp. -/
theorem add_sentence_eq_translate (env : PyEnv) (cfg : Config) (s frame : String)
    (ts : Option ℤ) (t : String) (data : PyDict)
    (hck : check_nmea_checksum s = true)
    (hp : parse_nmea_sentence env s = .ok (some (t, data))) :
    add_sentence env cfg s frame ts =
      translate_sentence env cfg t data
        (match ts with | some u => u | none => env.rostime) frame := by
  unfold add_sentence
  rw [hck, hp]
  rfl

/-- Inversion of a successful parse: the envelope regex matched, the type is
the one the classifier computed, and the dict is the decode of the token list
under that type's field table. -/
theorem parse_ok_inv (env : PyEnv) (s t : String) (data : PyDict)
    (hp : parse_nmea_sentence env s = .ok (some (t, data))) :
    regex_match_main s = true ∧ classify_type s = t ∧
      ∃ pm, (parse_maps env).lookup t = some pm ∧
        decode_fields (pyFields s) pm = .ok data := by
  unfold parse_nmea_sentence at hp
  split at hp
  · cases hp
  · rename_i hr
    rw [Bool.not_eq_false] at hr
    split at hp
    · cases hp
    · rename_i pm hl
      split at hp
      · cases hp
      · rename_i d hd
        simp only [Except.ok.injEq, Option.some.injEq, Prod.mk.injEq] at hp
        obtain ⟨hc, hdd⟩ := hp
        subst hdd
        exact ⟨hr, hc, pm, by rw [← hc]; exact hl, hd⟩

/-- Every entry of the field table of a successful decode was read from the
token at its index, converted without an exception, and is found in the dict
under its field name (names are unique per table). -/
theorem decode_fields_lookup (fields : List String) :
    ∀ (pm : List FieldEntry) (d : PyDict), decode_fields fields pm = .ok d →
      ∀ (name : String) (conv : String → Except PyErr PyVal) (idx : ℕ),
        (name, conv, idx) ∈ pm → (pm.map (fun e => e.1)).Nodup →
          ∃ tok v, fields.get? idx = some tok ∧ conv tok = .ok v ∧
            List.lookup name d = some v := by
  intro pm
  induction pm with
  | nil =>
    intro d h name conv idx hmem
    simp at hmem
  | cons e rest ih =>
    intro d h name conv idx hmem hnd
    rw [decode_fields] at h
    split at h
    · cases h
    · rename_i tok hget
      split at h
      · cases h
      · rename_i v0 hcv
        split at h
        · cases h
        · rename_i d' hdec
          obtain rfl : (e.1, v0) :: d' = d := by cases h; rfl
          rcases List.mem_cons.mp hmem with heq | hrest
          · obtain rfl : e = (name, conv, idx) := heq.symm
            refine ⟨tok, v0, hget, hcv, ?_⟩
            simp [List.lookup]
          · obtain ⟨tok', v', hget', hcv', hlook⟩ :=
              ih d' hdec name conv idx hrest (by simpa using hnd.of_cons)
            refine ⟨tok', v', hget', hcv', ?_⟩
            have hne : e.1 ≠ name := by
              intro hcontra
              have hmem2 : name ∈ rest.map (fun x => x.1) :=
                List.mem_map.mpr ⟨(name, conv, idx), hrest, rfl⟩
              rw [List.map_cons, List.nodup_cons, hcontra] at hnd
              exact hnd.1 hmem2
            have hbeq : (name == e.1) = false := beq_eq_false_iff_ne.mpr (Ne.symm hne)
            simpa [List.lookup, hbeq] using hlook

/-- Decidable equality for Except results so that concrete runs of the
embedding can be checked by decide. -/
instance {ε α : Type} [DecidableEq ε] [DecidableEq α] : DecidableEq (Except ε α)
  | .error e, .error f =>
    if h : e = f then .isTrue (congrArg Except.error h)
    else .isFalse (fun hc => h (Except.error.inj hc))
  | .ok x, .ok y =>
    if h : x = y then .isTrue (congrArg Except.ok h)
    else .isFalse (fun hc => h (Except.ok.inj hc))
  | .error _, .ok _ => .isFalse (fun hc => Except.noConfusion hc)
  | .ok _, .error _ => .isFalse (fun hc => Except.noConfusion hc)

/-- Looking up "GGA" in the parse maps gives the GGA field table. -/
theorem parse_maps_gga (env : PyEnv) : (parse_maps env).lookup "GGA" = some (ggaMap env) := rfl

/-- Looking up "RMC" in the parse maps gives the RMC field table. -/
theorem parse_maps_rmc (env : PyEnv) : (parse_maps env).lookup "RMC" = some (rmcMap env) := rfl

/-- Looking up "ROT" in the parse maps gives the ROT field table. -/
theorem parse_maps_rot (env : PyEnv) : (parse_maps env).lookup "ROT" = some rotMap := rfl

/-- Looking up "HDT" in the parse maps gives the HDT field table. -/
theorem parse_maps_hdt (env : PyEnv) : (parse_maps env).lookup "HDT" = some hdtMap := rfl

/-- The GGA field names are pairwise distinct. -/
theorem ggaMap_names_nodup (env : PyEnv) : ((ggaMap env).map (fun e => e.1)).Nodup := by
  simp [ggaMap]

/-- The RMC field names are pairwise distinct. -/
theorem rmcMap_names_nodup (env : PyEnv) : ((rmcMap env).map (fun e => e.1)).Nodup := by
  simp [rmcMap]

/-- The ROT field names are pairwise distinct. -/
theorem rotMap_names_nodup : (rotMap.map (fun e => e.1)).Nodup := by
  simp [rotMap]

/-- With useRMC unset, a GGA dict takes the GGA branch. -/
theorem translate_gga (env : PyEnv) (cfg : Config) (data : PyDict) (ct : ℤ)
    (frame : String) (hc : cfg.use_RMC = false) :
    translate_sentence env cfg "GGA" data ct frame =
      .ok (none, gga_output cfg data ct frame) := by
  unfold translate_sentence
  rw [hc]
  simp

/-- An RMC dict takes the RMC branch whatever the configuration. -/
theorem translate_rmc (env : PyEnv) (cfg : Config) (data : PyDict) (ct : ℤ)
    (frame : String) :
    translate_sentence env cfg "RMC" data ct frame =
      .ok (none, rmc_output env cfg data ct frame) := by
  simp [translate_sentence]

/-- An HDT dict takes the HDT branch whatever the configuration. -/
theorem translate_hdt (env : PyEnv) (cfg : Config) (data : PyDict) (ct : ℤ)
    (frame : String) :
    translate_sentence env cfg "HDT" data ct frame = .ok (none, hdt_output data) := by
  simp [translate_sentence]

/-- A ROT dict takes the ROT branch whatever the configuration. -/
theorem translate_rot (env : PyEnv) (cfg : Config) (data : PyDict) (ct : ℤ)
    (frame : String) :
    translate_sentence env cfg "ROT" data ct frame =
      .ok (none, rot_output data ct frame) := by
  simp [translate_sentence]

/-- Reading the float value found by a dict lookup through getF. -/
theorem getF_of_lookup (d : PyDict) (k : String) (x : PFloat)
    (h : List.lookup k d = some (.f x)) : getF d k = x := by
  unfold getF
  rw [h]

/-- Reading the boolean value found by a dict lookup through getB. -/
theorem getB_of_lookup (d : PyDict) (k : String) (v : Bool)
    (h : List.lookup k d = some (.b v)) : getB d k = v := by
  unfold getB
  rw [h]

/-- Fix-status mapping exactly as the specification words it, to be compared
with the driver's branch. -/
def ggaStatusSpec (q : ℤ) : ℤ :=
  if q = 0 then STATUS_NO_FIX
  else if q = 1 then STATUS_FIX
  else if q = 2 then STATUS_SBAS_FIX
  else if q = 4 ∨ q = 5 then STATUS_GBAS_FIX
  else if q = 9 then STATUS_SBAS_FIX
  else STATUS_NO_FIX

/-- Concrete environment for witnesses: library curves taken as the identity
(the claims under test are independent of the actual radians/sin/cos), date
UTC midnight of the epoch, rostime 0. -/
def envW : PyEnv := ⟨id, id, id, 0, 0⟩

/-- Default configuration: no time_ref_source, useRMC false. -/
def cfg0 : Config := ⟨none, false⟩

/-- RMC-preferring configuration. -/
def cfgR : Config := ⟨none, true⟩

/-- Scenario-1 GGA sentence of the specification. -/
def ggaS1 : String := "$GPGGA,123519,4807.038,N,01131.000,E,1,08,0.9,545.4,M,46.9,M,,*47"

/-- The same GGA sentence with southern/western hemisphere letters. -/
def ggaSW : String := "$GPGGA,123519,4807.038,S,01131.000,W,1,08,0.9,545.4,M,46.9,M,,*48"

/-- A GGA sentence with an empty time-of-day token. -/
def ggaNoTime : String := "$GPGGA,,4807.038,N,01131.000,E,1,08,0.9,545.4,M,46.9,M,,*4A"

/-- Scenario-2 RMC sentence of the specification. -/
def rmcS1 : String := "$GPRMC,123519,A,4807.038,N,01131.000,E,022.4,084.4,230394,003.1,W*6A"

/-- An HDT sentence whose heading is exactly zero. -/
def hdtZero : String := "$GPHDT,0.0,T*35"

/-- A ROT sentence with rate 1 and validity letter V (invalid). -/
def rotV1 : String := "$GPROT,1,V*39"

/-- A ROT sentence with rate 5 and validity letter V (invalid). -/
def rotV5 : String := "$GPROT,5,V*3D"

/-- A checksum-valid proprietary PJT sentence. -/
def pjtS : String := "$PTNLPJT,NAD83,Test*3E"

/-- A checksum-valid GGA sentence with fewer tokens than the field table's
largest index. -/
def ggaTrunc : String := "$GPGGA,1*4B"

/-- A checksum-valid, well-formed AVR sentence (21 tokens, so every field
table index is in range). -/
def avrS : String := "$GPAVR,t,10.5,Yaw,2.0,Tilt,3.0,a,b,4,c,5,d,e,f,g,h,i,j,k,6*00"

/-- Dict a successful parse produced (helper for stating witnesses). -/
def parsedDict (env : PyEnv) (s : String) : PyDict :=
  match parse_nmea_sentence env s with
  | .ok (some (_, d)) => d
  | _ => []

/-- Output of a non-raising add_sentence call (helper for stating witnesses). -/
def addOut (env : PyEnv) (cfg : Config) (s frame : String) (ts : Option ℤ) : Output :=
  match add_sentence env cfg s frame ts with
  | .ok (_, o) => o
  | .error _ => Output.empty

/-- C2: for every successfully decoded GGA sentence processed with the
default fix-source configuration (useRMC unset), the emitted fix's status is
the claimed mapping of the integer fix-quality code: 0 to NO_FIX, 1 to FIX,
2 to SBAS_FIX, 4 or 5 to GBAS_FIX, 9 to SBAS_FIX, every other integer to
NO_FIX. -/
theorem C2_gga_fix_status (env : PyEnv) (cfg : Config) (s frame : String)
    (ts : Option ℤ) (r : Option Bool) (out : Output) (data : PyDict)
    (hck : check_nmea_checksum s = true)
    (hc : cfg.use_RMC = false)
    (hp : parse_nmea_sentence env s = .ok (some ("GGA", data)))
    (ha : add_sentence env cfg s frame ts = .ok (r, out)) :
    out.fix.map (fun m => m.status) = [ggaStatusSpec (getI data "fix_type")] := by
  rw [add_sentence_eq_translate env cfg s frame ts "GGA" data hck hp] at ha
  rw [translate_gga env cfg data _ frame hc] at ha
  simp only [Except.ok.injEq, Prod.mk.injEq] at ha
  obtain ⟨-, hout⟩ := ha
  subst hout
  unfold gga_output
  by_cases hn : pf_isnan (getF data "utc_time") = false <;>
    simp [hn, ggaStatusSpec]

/-- C2 witness: the scenario-1 sentence (fix quality 1) runs through
add_sentence and its fix status obeys the mapping. -/
theorem C2_gga_fix_status_witness :
    check_nmea_checksum ggaS1 = true ∧
    cfg0.use_RMC = false ∧
    parse_nmea_sentence envW ggaS1 = .ok (some ("GGA", parsedDict envW ggaS1)) ∧
    add_sentence envW cfg0 ggaS1 "gps" (some 0) =
      .ok (none, addOut envW cfg0 ggaS1 "gps" (some 0)) ∧
    (addOut envW cfg0 ggaS1 "gps" (some 0)).fix.map (fun m => m.status) =
      [ggaStatusSpec (getI (parsedDict envW ggaS1) "fix_type")] :=
  ⟨by decide, rfl, rfl, rfl,
   C2_gga_fix_status envW cfg0 ggaS1 "gps" (some 0) none
     (addOut envW cfg0 ggaS1 "gps" (some 0)) (parsedDict envW ggaS1)
     (by decide) rfl rfl rfl⟩

/-- C3: in every emitted position fix (GGA under the default configuration,
RMC under the RMC-preferring one), the latitude is the negation of the
decoded decimal-degrees value exactly when the hemisphere token is "S", and
the longitude is negated exactly when its token is "W"; any other token
leaves the value unchanged. -/
theorem C3_hemisphere_sign (env : PyEnv) (cfg : Config) (s frame : String)
    (ts : Option ℤ) (r : Option Bool) (out : Output) (t : String) (data : PyDict)
    (hck : check_nmea_checksum s = true)
    (hp : parse_nmea_sentence env s = .ok (some (t, data)))
    (ha : add_sentence env cfg s frame ts = .ok (r, out))
    (hb : (t = "GGA" ∧ cfg.use_RMC = false) ∨ (t = "RMC" ∧ cfg.use_RMC = true)) :
    out.fix.map (fun m => m.latitude) =
      [if getS data "latitude_direction" = "S" then pf_neg (getF data "latitude")
       else getF data "latitude"] ∧
    out.fix.map (fun m => m.longitude) =
      [if getS data "longitude_direction" = "W" then pf_neg (getF data "longitude")
       else getF data "longitude"] := by
  rcases hb with ⟨ht, hc⟩ | ⟨ht, hc⟩
  · subst ht
    rw [add_sentence_eq_translate env cfg s frame ts "GGA" data hck hp] at ha
    rw [translate_gga env cfg data _ frame hc] at ha
    simp only [Except.ok.injEq, Prod.mk.injEq] at ha
    obtain ⟨-, hout⟩ := ha
    subst hout
    unfold gga_output
    by_cases hn : pf_isnan (getF data "utc_time") = false <;> simp [hn]
  · subst ht
    rw [add_sentence_eq_translate env cfg s frame ts "RMC" data hck hp] at ha
    rw [translate_rmc env cfg data _ frame] at ha
    simp only [Except.ok.injEq, Prod.mk.injEq] at ha
    obtain ⟨-, hout⟩ := ha
    subst hout
    unfold rmc_output
    rw [hc]
    by_cases hv : getB data "fix_valid" <;>
      by_cases hn : pf_isnan (getF data "utc_time") = false <;>
        simp [hv, hn]

/-- C3 witness: a GGA sentence with hemisphere letters S and W under the
default configuration; both signs flip. -/
theorem C3_hemisphere_sign_witness :
    check_nmea_checksum ggaSW = true ∧
    parse_nmea_sentence envW ggaSW = .ok (some ("GGA", parsedDict envW ggaSW)) ∧
    getS (parsedDict envW ggaSW) "latitude_direction" = "S" ∧
    getS (parsedDict envW ggaSW) "longitude_direction" = "W" ∧
    (addOut envW cfg0 ggaSW "gps" (some 0)).fix.map (fun m => m.latitude) =
      [if getS (parsedDict envW ggaSW) "latitude_direction" = "S" then
         pf_neg (getF (parsedDict envW ggaSW) "latitude")
       else getF (parsedDict envW ggaSW) "latitude"] :=
  ⟨by decide, rfl, rfl, rfl,
   (C3_hemisphere_sign envW cfg0 ggaSW "gps" (some 0) none
     (addOut envW cfg0 ggaSW "gps" (some 0)) "GGA" (parsedDict envW ggaSW)
     (by decide) rfl rfl (Or.inl ⟨rfl, rfl⟩)).1⟩

/-- C6: for every successfully decoded RMC sentence, whatever the fix-source
flag, velocity records are emitted exactly when the validity flag is true —
a global-frame vector (x = speed·sin(trueCourse), y = speed·cos(trueCourse))
and a body-frame record with linear.x = speed — where the decoded speed is
convert_knots_to_mps of token 7 (knots times 0.514444444444) and the decoded
course is convert_deg_to_rads of token 8 (math.radians of the degrees). -/
theorem C6_rmc_velocity (env : PyEnv) (cfg : Config) (s frame : String)
    (ts : Option ℤ) (r : Option Bool) (out : Output) (data : PyDict)
    (hck : check_nmea_checksum s = true)
    (hp : parse_nmea_sentence env s = .ok (some ("RMC", data)))
    (ha : add_sentence env cfg s frame ts = .ok (r, out)) :
    (getB data "fix_valid" = true →
      out.vel.map (fun v => (v.x, v.y)) =
        [(pf_mul (getF data "speed") (env.sinF (getF data "true_course")),
          pf_mul (getF data "speed") (env.cosF (getF data "true_course")))] ∧
      out.vel_local.map (fun v => v.lin_x) = [getF data "speed"]) ∧
    (getB data "fix_valid" = false → out.vel = [] ∧ out.vel_local = []) ∧
    (∃ tok7, (pyFields s).get? 7 = some tok7 ∧
      getF data "speed" = convert_knots_to_mps tok7) ∧
    (∃ tok8, (pyFields s).get? 8 = some tok8 ∧
      getF data "true_course" = convert_deg_to_rads env tok8) ∧
    (∀ tok, convert_knots_to_mps tok =
      pf_mul_const (safe_float tok) (0.514444444444 : ℚ)) := by
  obtain ⟨-, -, pm, hlk, hdec⟩ := parse_ok_inv env s "RMC" data hp
  rw [parse_maps_rmc env] at hlk
  obtain rfl : pm = rmcMap env := by cases hlk; rfl
  rw [add_sentence_eq_translate env cfg s frame ts "RMC" data hck hp] at ha
  rw [translate_rmc env cfg data _ frame] at ha
  simp only [Except.ok.injEq, Prod.mk.injEq] at ha
  obtain ⟨-, hout⟩ := ha
  subst hout
  refine ⟨?_, ?_, ?_, ?_, fun tok => rfl⟩
  · intro hv
    unfold rmc_output
    by_cases hrmc : cfg.use_RMC <;>
      by_cases hn : pf_isnan (getF data "utc_time") = false <;>
        simp [hrmc, hn, hv, Output.empty]
  · intro hv
    unfold rmc_output
    by_cases hrmc : cfg.use_RMC <;>
      by_cases hn : pf_isnan (getF data "utc_time") = false <;>
        simp [hrmc, hn, hv, Output.empty]
  · obtain ⟨tok, v, hget, hcv, hlook⟩ :=
      decode_fields_lookup (pyFields s) (rmcMap env) data hdec "speed" cKnots 7
        (by simp [rmcMap]) (rmcMap_names_nodup env)
    obtain rfl : v = .f (convert_knots_to_mps tok) := by
      unfold cKnots at hcv
      cases hcv
      rfl
    exact ⟨tok, hget, getF_of_lookup data "speed" _ hlook⟩
  · obtain ⟨tok, v, hget, hcv, hlook⟩ :=
      decode_fields_lookup (pyFields s) (rmcMap env) data hdec "true_course" (cRads env) 8
        (by simp [rmcMap]) (rmcMap_names_nodup env)
    obtain rfl : v = .f (convert_deg_to_rads env tok) := by
      unfold cRads at hcv
      cases hcv
      rfl
    exact ⟨tok, hget, getF_of_lookup data "true_course" _ hlook⟩

/-- C6 witness: the scenario-2 RMC sentence under the default (non-RMC)
configuration still emits both velocity records with the stated components. -/
theorem C6_rmc_velocity_witness :
    check_nmea_checksum rmcS1 = true ∧
    parse_nmea_sentence envW rmcS1 = .ok (some ("RMC", parsedDict envW rmcS1)) ∧
    getB (parsedDict envW rmcS1) "fix_valid" = true ∧
    (addOut envW cfg0 rmcS1 "gps" (some 0)).vel.map (fun v => (v.x, v.y)) =
      [(pf_mul (getF (parsedDict envW rmcS1) "speed")
          (envW.sinF (getF (parsedDict envW rmcS1) "true_course")),
        pf_mul (getF (parsedDict envW rmcS1) "speed")
          (envW.cosF (getF (parsedDict envW rmcS1) "true_course")))] ∧
    (addOut envW cfg0 rmcS1 "gps" (some 0)).vel_local.map (fun v => v.lin_x) =
      [getF (parsedDict envW rmcS1) "speed"] :=
  ⟨by decide, rfl, rfl,
   ((C6_rmc_velocity envW cfg0 rmcS1 "gps" (some 0) none
       (addOut envW cfg0 rmcS1 "gps" (some 0)) (parsedDict envW rmcS1)
       (by decide) rfl rfl).1 rfl).1,
   ((C6_rmc_velocity envW cfg0 rmcS1 "gps" (some 0) none
       (addOut envW cfg0 rmcS1 "gps" (some 0)) (parsedDict envW rmcS1)
       (by decide) rfl rfl).1 rfl).2⟩

/-- C8: a decoded GGA sentence (default configuration) always emits exactly
one fix; its decoded UTC time is convert_time of token 1, which is NaN
whenever one of the three 2-digit groups of that token is empty; no
time-reference record accompanies a NaN time, and exactly one accompanies a
non-NaN time. -/
theorem C8_gga_time_gate (env : PyEnv) (cfg : Config) (s frame : String)
    (ts : Option ℤ) (r : Option Bool) (out : Output) (data : PyDict)
    (hck : check_nmea_checksum s = true)
    (hc : cfg.use_RMC = false)
    (hp : parse_nmea_sentence env s = .ok (some ("GGA", data)))
    (ha : add_sentence env cfg s frame ts = .ok (r, out)) :
    out.fix.length = 1 ∧
    (∃ tok, (pyFields s).get? 1 = some tok ∧
      convert_time env tok = .ok (getF data "utc_time") ∧
      ((pySlice tok 0 2 = "" ∨ pySlice tok 2 4 = "" ∨ pySlice tok 4 6 = "") →
        getF data "utc_time" = none)) ∧
    (getF data "utc_time" = none → out.time_ref = []) ∧
    (getF data "utc_time" ≠ none → out.time_ref.length = 1) := by
  obtain ⟨-, -, pm, hlk, hdec⟩ := parse_ok_inv env s "GGA" data hp
  rw [parse_maps_gga env] at hlk
  obtain rfl : pm = ggaMap env := by cases hlk; rfl
  rw [add_sentence_eq_translate env cfg s frame ts "GGA" data hck hp] at ha
  rw [translate_gga env cfg data _ frame hc] at ha
  simp only [Except.ok.injEq, Prod.mk.injEq] at ha
  obtain ⟨-, hout⟩ := ha
  subst hout
  obtain ⟨tok, v, hget, hcv, hlook⟩ :=
    decode_fields_lookup (pyFields s) (ggaMap env) data hdec "utc_time" (cTime env) 1
      (by simp [ggaMap]) (ggaMap_names_nodup env)
  obtain ⟨x, hct, rfl⟩ : ∃ x, convert_time env tok = .ok x ∧ v = .f x := by
    unfold cTime at hcv
    rcases h : convert_time env tok with e | x
    · rw [h] at hcv; cases hcv
    · rw [h] at hcv; cases hcv; exact ⟨x, rfl, rfl⟩
  have hgf : getF data "utc_time" = x := getF_of_lookup data "utc_time" x hlook
  refine ⟨?_, ⟨tok, hget, ?_, ?_⟩, ?_, ?_⟩
  · unfold gga_output
    by_cases hn : pf_isnan (getF data "utc_time") = false <;> simp [hn]
  · rw [hgf]; exact hct
  · intro hemp
    rw [hgf]
    unfold convert_time at hct
    rw [if_pos hemp] at hct
    exact (Except.ok.inj hct).symm
  · intro hnone
    unfold gga_output
    simp [hnone, pf_isnan, Output.empty]
  · intro hsome
    unfold gga_output
    rcases hx : getF data "utc_time" with _ | q
    · exact absurd hx hsome
    · simp [hx, pf_isnan]

/-- C8 witness: the GGA sentence with an empty time-of-day token yields a
NaN UTC time, still emits its fix, and emits no time reference. -/
theorem C8_gga_time_gate_witness :
    check_nmea_checksum ggaNoTime = true ∧
    parse_nmea_sentence envW ggaNoTime = .ok (some ("GGA", parsedDict envW ggaNoTime)) ∧
    (pyFields ggaNoTime).get? 1 = some "" ∧
    getF (parsedDict envW ggaNoTime) "utc_time" = none ∧
    (addOut envW cfg0 ggaNoTime "gps" (some 0)).fix.length = 1 ∧
    (addOut envW cfg0 ggaNoTime "gps" (some 0)).time_ref = [] :=
  ⟨by decide, rfl, by decide, rfl,
   (C8_gga_time_gate envW cfg0 ggaNoTime "gps" (some 0) none
      (addOut envW cfg0 ggaNoTime "gps" (some 0)) (parsedDict envW ggaNoTime)
      (by decide) rfl rfl rfl).1,
   (C8_gga_time_gate envW cfg0 ggaNoTime "gps" (some 0) none
      (addOut envW cfg0 ggaNoTime "gps" (some 0)) (parsedDict envW ggaNoTime)
      (by decide) rfl rfl rfl).2.2.1 rfl⟩

/-- C9: a decoded ROT sentence always emits exactly one angular-rate record
(angular.z = rate·3.14/180·60), with no condition on the decoded validity
field, which the field table nevertheless contains. -/
theorem C9_rot_unconditional (env : PyEnv) (cfg : Config) (s frame : String)
    (ts : Option ℤ) (r : Option Bool) (out : Output) (data : PyDict)
    (hck : check_nmea_checksum s = true)
    (hp : parse_nmea_sentence env s = .ok (some ("ROT", data)))
    (ha : add_sentence env cfg s frame ts = .ok (r, out)) :
    r = none ∧
    out.rot.map (fun m => m.ang_z) =
      [some (((getI data "rate" : ℤ) : ℚ) * (3.14 : ℚ) / 180 * 60)] ∧
    (∃ v, List.lookup "validity" data = some (.s v)) := by
  obtain ⟨-, -, pm, hlk, hdec⟩ := parse_ok_inv env s "ROT" data hp
  rw [parse_maps_rot env] at hlk
  obtain rfl : pm = rotMap := by cases hlk; rfl
  rw [add_sentence_eq_translate env cfg s frame ts "ROT" data hck hp] at ha
  rw [translate_rot env cfg data _ frame] at ha
  simp only [Except.ok.injEq, Prod.mk.injEq] at ha
  obtain ⟨hr, hout⟩ := ha
  subst hout
  refine ⟨hr.symm, ?_, ?_⟩
  · unfold rot_output
    simp
  · obtain ⟨tok, v, hget, hcv, hlook⟩ :=
      decode_fields_lookup (pyFields s) rotMap data hdec "validity" cStr 2
        (by simp [rotMap]) rotMap_names_nodup
    obtain rfl : v = .s tok := by
      unfold cStr at hcv
      cases hcv
      rfl
    exact ⟨tok, hlook⟩

/-- C9 witness: a ROT sentence whose validity letter is V (invalid data; the
decoded token also carries the trailing checksum text, as the source's comma
split leaves it) still emits its angular-rate record. -/
theorem C9_rot_unconditional_witness :
    check_nmea_checksum rotV5 = true ∧
    parse_nmea_sentence envW rotV5 = .ok (some ("ROT", parsedDict envW rotV5)) ∧
    List.lookup "validity" (parsedDict envW rotV5) = some (.s "V*3D") ∧
    (addOut envW cfg0 rotV5 "gps" (some 0)).rot.map (fun m => m.ang_z) =
      [some (((getI (parsedDict envW rotV5) "rate" : ℤ) : ℚ) * (3.14 : ℚ) / 180 * 60)] :=
  ⟨by decide, rfl, by decide,
   (C9_rot_unconditional envW cfg0 rotV5 "gps" (some 0) none
      (addOut envW cfg0 rotV5 "gps" (some 0)) (parsedDict envW rotV5)
      (by decide) rfl rfl).2.1⟩

/-- The condition under which some branch of the elif chain fires for a
parsed type, read off the source's guards. -/
def branch_taken (cfg : Config) (t : String) : Prop :=
  (cfg.use_RMC = false ∧ t = "GGA") ∨ t = "RMC" ∨ t = "HDT" ∨ t = "ROT" ∨
    t = "VTG" ∨ t = "AVR"

instance (cfg : Config) (t : String) : Decidable (branch_taken cfg t) := by
  unfold branch_taken
  infer_instance

/-- Exhaustive case split of the elif chain: a taken non-AVR branch falls off
with None, the AVR branch raises NameError, and no branch means
`return False`. -/
theorem translate_cases (env : PyEnv) (cfg : Config) (t : String) (data : PyDict)
    (ct : ℤ) (frame : String) :
    (branch_taken cfg t ∧ t ≠ "AVR" ∧
      ∃ out, translate_sentence env cfg t data ct frame = .ok (none, out)) ∨
    (t = "AVR" ∧ branch_taken cfg t ∧
      translate_sentence env cfg t data ct frame = .error .nameError) ∨
    (¬ branch_taken cfg t ∧
      translate_sentence env cfg t data ct frame = .ok (some false, Output.empty)) := by
  by_cases hG : t = "GGA"
  · subst hG
    by_cases hu : cfg.use_RMC = false
    · exact Or.inl ⟨Or.inl ⟨hu, rfl⟩, by decide, gga_output cfg data ct frame,
        translate_gga env cfg data ct frame hu⟩
    · right; right
      constructor
      · unfold branch_taken
        simp [hu]
      · unfold translate_sentence
        simp [hu]
  · by_cases hR : t = "RMC"
    · subst hR
      exact Or.inl ⟨Or.inr (Or.inl rfl), by decide, rmc_output env cfg data ct frame,
        translate_rmc env cfg data ct frame⟩
    · by_cases hH : t = "HDT"
      · subst hH
        exact Or.inl ⟨Or.inr (Or.inr (Or.inl rfl)), by decide, hdt_output data,
          translate_hdt env cfg data ct frame⟩
      · by_cases hRo : t = "ROT"
        · subst hRo
          exact Or.inl ⟨Or.inr (Or.inr (Or.inr (Or.inl rfl))), by decide,
            rot_output data ct frame, translate_rot env cfg data ct frame⟩
        · by_cases hV : t = "VTG"
          · subst hV
            refine Or.inl ⟨Or.inr (Or.inr (Or.inr (Or.inr (Or.inl rfl)))), by decide,
              vtg_output data ct frame, ?_⟩
            simp [translate_sentence]
          · by_cases hA : t = "AVR"
            · subst hA
              refine Or.inr (Or.inl ⟨rfl,
                Or.inr (Or.inr (Or.inr (Or.inr (Or.inr rfl)))), ?_⟩)
              simp [translate_sentence]
            · right; right
              constructor
              · unfold branch_taken
                simp [hG, hR, hH, hRo, hV, hA]
              · unfold translate_sentence
                simp [hG, hR, hH, hRo, hV, hA]

/-- C10 (amended): add_sentence returns False exactly when the checksum
fails, parsing rejects the sentence, or no translation branch is taken under
the current configuration; on every handled sentence other than AVR it
returns None; it never returns True.  (The AVR branch raises NameError
instead of returning, and a GGA sentence under the RMC-preferring
configuration takes no branch, so it returns False.) -/
theorem C10_result_values (env : PyEnv) (cfg : Config) (s frame : String)
    (ts : Option ℤ) :
    (∀ b out, add_sentence env cfg s frame ts = .ok (some b, out) → b = false) ∧
    ((∃ out, add_sentence env cfg s frame ts = .ok (some false, out)) ↔
      check_nmea_checksum s = false ∨ parse_nmea_sentence env s = .ok none ∨
      (∃ t d, parse_nmea_sentence env s = .ok (some (t, d)) ∧ ¬ branch_taken cfg t)) ∧
    (∀ t d, check_nmea_checksum s = true →
      parse_nmea_sentence env s = .ok (some (t, d)) → branch_taken cfg t →
      t ≠ "AVR" → ∃ out, add_sentence env cfg s frame ts = .ok (none, out)) := by
  by_cases hck : check_nmea_checksum s = true
  · rcases hps : parse_nmea_sentence env s with e | o
    · have hadd : add_sentence env cfg s frame ts = .error e := by
        unfold add_sentence
        rw [hck, hps]
        rfl
      refine ⟨?_, ⟨?_, ?_⟩, ?_⟩
      · intro b out h
        rw [hadd] at h
        cases h
      · rintro ⟨out, h⟩
        rw [hadd] at h
        cases h
      · rintro (h | h | ⟨t, d, h, -⟩)
        · rw [hck] at h; cases h
        · cases h
        · cases h
      · intro t d _ hpeq
        cases hpeq
    · rcases o with _ | ⟨t0, d0⟩
      · have hadd : add_sentence env cfg s frame ts = .ok (some false, Output.empty) := by
          unfold add_sentence
          rw [hck, hps]
          rfl
        refine ⟨?_, ⟨?_, ?_⟩, ?_⟩
        · intro b out h
          rw [hadd] at h
          simp only [Except.ok.injEq, Prod.mk.injEq, Option.some.injEq] at h
          exact h.1.symm
        · intro _
          exact Or.inr (Or.inl rfl)
        · intro _
          exact ⟨Output.empty, hadd⟩
        · intro t d _ hpeq
          cases hpeq
      · obtain ⟨ct, hct⟩ : ∃ ct : ℤ,
            (match ts with | some u => u | none => env.rostime) = ct := ⟨_, rfl⟩
        have hadd : add_sentence env cfg s frame ts =
            translate_sentence env cfg t0 d0 ct frame := by
          unfold add_sentence
          rw [hck, hps, ← hct]
          rfl
        rcases translate_cases env cfg t0 d0 ct frame with
          ⟨hbt, hnA, out2, htr⟩ | ⟨hA, hbt, htr⟩ | ⟨hnb, htr⟩
        · refine ⟨?_, ⟨?_, ?_⟩, ?_⟩
          · intro b out h
            rw [hadd, htr] at h
            simp at h
          · rintro ⟨out, h⟩
            rw [hadd, htr] at h
            simp at h
          · rintro (h | h | ⟨t, d, h, hnb⟩)
            · rw [hck] at h; cases h
            · cases h
            · simp only [Except.ok.injEq, Option.some.injEq, Prod.mk.injEq] at h
              obtain ⟨rfl, -⟩ := h
              exact absurd hbt hnb
          · intro t d _ hpeq _ _
            simp only [Except.ok.injEq, Option.some.injEq, Prod.mk.injEq] at hpeq
            obtain ⟨rfl, rfl⟩ := hpeq
            exact ⟨out2, by rw [hadd, htr]⟩
        · refine ⟨?_, ⟨?_, ?_⟩, ?_⟩
          · intro b out h
            rw [hadd, htr] at h
            cases h
          · rintro ⟨out, h⟩
            rw [hadd, htr] at h
            cases h
          · rintro (h | h | ⟨t, d, h, hnb⟩)
            · rw [hck] at h; cases h
            · cases h
            · simp only [Except.ok.injEq, Option.some.injEq, Prod.mk.injEq] at h
              obtain ⟨rfl, -⟩ := h
              exact absurd hbt hnb
          · intro t d _ hpeq _ hnA
            simp only [Except.ok.injEq, Option.some.injEq, Prod.mk.injEq] at hpeq
            obtain ⟨rfl, rfl⟩ := hpeq
            exact absurd hA hnA
        · refine ⟨?_, ⟨?_, ?_⟩, ?_⟩
          · intro b out h
            rw [hadd, htr] at h
            simp only [Except.ok.injEq, Prod.mk.injEq, Option.some.injEq] at h
            exact h.1.symm
          · intro _
            exact Or.inr (Or.inr ⟨t0, d0, rfl, hnb⟩)
          · intro _
            exact ⟨Output.empty, by rw [hadd, htr]⟩
          · intro t d _ hpeq hbt _
            simp only [Except.ok.injEq, Option.some.injEq, Prod.mk.injEq] at hpeq
            obtain ⟨rfl, rfl⟩ := hpeq
            exact absurd hbt hnb
  · have hfalse : check_nmea_checksum s = false := by
      rwa [Bool.not_eq_true] at hck
    have hadd : add_sentence env cfg s frame ts = .ok (some false, Output.empty) := by
      unfold add_sentence
      rw [hfalse]
      simp
    refine ⟨?_, ⟨?_, ?_⟩, ?_⟩
    · intro b out h
      rw [hadd] at h
      simp only [Except.ok.injEq, Prod.mk.injEq, Option.some.injEq] at h
      exact h.1.symm
    · intro _
      exact Or.inl hfalse
    · intro _
      exact ⟨Output.empty, hadd⟩
    · intro t d hck2 _
      rw [hck2] at hfalse
      cases hfalse

/-- C10 counterexample: a handled AVR sentence raises NameError instead of
returning None, and a GGA sentence under the RMC-preferring configuration
returns False although the GGA translation branch exists. -/
theorem C10_counterexample :
    check_nmea_checksum avrS = true ∧
    parse_nmea_sentence envW avrS = .ok (some ("AVR", parsedDict envW avrS)) ∧
    add_sentence envW cfg0 avrS "gps" (some 0) = .error .nameError ∧
    check_nmea_checksum ggaS1 = true ∧
    parse_nmea_sentence envW ggaS1 = .ok (some ("GGA", parsedDict envW ggaS1)) ∧
    add_sentence envW cfgR ggaS1 "gps" (some 0) = .ok (some false, Output.empty) :=
  ⟨by decide, rfl, by decide, by decide, rfl, by decide⟩

/-- C1: the no-exception claim fails on the code.  A checksum-valid GGA
sentence with fewer comma-separated tokens than the field table's largest
index raises IndexError inside the extraction loop, and a checksum-valid,
well-formed AVR sentence raises NameError in the translation (the undefined
name current_timecur); both escape add_sentence. -/
theorem C1_exception_escapes :
    check_nmea_checksum ggaTrunc = true ∧
    add_sentence envW cfg0 ggaTrunc "gps" (some 0) = .error .indexError ∧
    check_nmea_checksum avrS = true ∧
    parse_nmea_sentence envW avrS = .ok (some ("AVR", parsedDict envW avrS)) ∧
    add_sentence envW cfg0 avrS "gps" (some 0) = .error .nameError :=
  ⟨by decide, by decide, by decide, rfl, by decide⟩

/-- C4: the vendor classification claim fails on the code.  str.find returns
-1 (truthy) for every first token, since it starts with the dollar sign and
can never begin with "PTNLDG"; hence every checksum-valid PTNL sentence —
here one whose suffix names PJT — is classified "DG" and rejected, although
the token's suffix after the 4-character prefix is "PJT". -/
theorem C4_ptnl_always_dg :
    check_nmea_checksum pjtS = true ∧
    py_find "$PTNLPJT" "PTNLDG" = -1 ∧
    classify_type pjtS = "DG" ∧
    pyDrop "$PTNLPJT" 5 = "PJT" ∧
    parse_nmea_sentence envW pjtS = .ok none ∧
    add_sentence envW cfg0 pjtS "gps" (some 0) = .ok (some false, Output.empty) :=
  ⟨by decide, by decide, by decide, by decide, by decide, by decide⟩

/-- C5: the zero-heading claim fails on the code.  An HDT sentence whose
decoded heading is exactly 0.0 publishes nothing: the publish is gated on the
Python truthiness of the heading value, and 0.0 is falsy. -/
theorem C5_zero_heading_suppressed :
    check_nmea_checksum hdtZero = true ∧
    parse_nmea_sentence envW hdtZero = .ok (some ("HDT", parsedDict envW hdtZero)) ∧
    getF (parsedDict envW hdtZero) "heading_north" = some 0 ∧
    add_sentence envW cfg0 hdtZero "gps" (some 0) = .ok (none, Output.empty) := by
  have hsf : safe_float "0.0" = some 0 := by
    show some (((digitsVal ['0'] : ℕ) : ℚ) + ((digitsVal ['0'] : ℕ) : ℚ) / (10 : ℚ) ^ 1) =
      some (0 : ℚ)
    have h0 : '0'.toNat - 48 = 0 := by decide
    norm_num [digitsVal, h0]
  have hgf : getF (parsedDict envW hdtZero) "heading_north" = some 0 := hsf
  refine ⟨by decide, rfl, hgf, ?_⟩
  have hp : parse_nmea_sentence envW hdtZero =
      .ok (some ("HDT", parsedDict envW hdtZero)) := rfl
  rw [add_sentence_eq_translate envW cfg0 hdtZero "gps" (some 0) "HDT"
    (parsedDict envW hdtZero) (by decide) hp]
  rw [translate_hdt]
  unfold hdt_output
  rw [hgf]
  simp [pf_truthy]

/-- C7 counterexample: for the ROT sentence decoding rate 1, the emitted
angular.z is 3.14/180·60 = 157/150, which is not 1·(π/180)·60. -/
theorem C7_rot_rate_counterexample :
    getI (parsedDict envW rotV1) "rate" = 1 ∧
    (addOut envW cfg0 rotV1 "gps" (some 0)).rot.map (fun m => m.ang_z) =
      [some (157 / 150 : ℚ)] ∧
    ¬ (((157 / 150 : ℚ) : ℝ) = (1 : ℝ) * (Real.pi / 180) * 60) := by
  refine ⟨by decide, ?_, ?_⟩
  · show [some (((1 : ℤ) : ℚ) * (3.14 : ℚ) / 180 * 60)] = [some (157 / 150 : ℚ)]
    norm_num
  · intro h
    have hπ : (3.14 : ℝ) < Real.pi := Real.pi_gt_d2
    rw [show ((157 / 150 : ℚ) : ℝ) = (157 / 150 : ℝ) by norm_num] at h
    nlinarith [h, hπ]

/-- C7 (amended): for every successfully decoded ROT sentence, the emitted
angular-rate record has angular.z equal to the decoded integer rate
multiplied by exactly 3.14/180·60 — the source's literal 3.14 standing in
for π. -/
theorem C7_rot_rate_amended (env : PyEnv) (cfg : Config) (s frame : String)
    (ts : Option ℤ) (r : Option Bool) (out : Output) (data : PyDict)
    (hck : check_nmea_checksum s = true)
    (hp : parse_nmea_sentence env s = .ok (some ("ROT", data)))
    (ha : add_sentence env cfg s frame ts = .ok (r, out)) :
    out.rot.map (fun m => m.ang_z) =
      [some (((getI data "rate" : ℤ) : ℚ) * (3.14 : ℚ) / 180 * 60)] ∧
    out.rot.length = 1 := by
  rw [add_sentence_eq_translate env cfg s frame ts "ROT" data hck hp] at ha
  rw [translate_rot env cfg data _ frame] at ha
  simp only [Except.ok.injEq, Prod.mk.injEq] at ha
  obtain ⟨-, hout⟩ := ha
  subst hout
  unfold rot_output
  simp

/-- C7 witness: the rate-1 ROT sentence runs through add_sentence and its
angular.z is the decoded rate times 3.14/180·60. -/
theorem C7_rot_rate_amended_witness :
    check_nmea_checksum rotV1 = true ∧
    parse_nmea_sentence envW rotV1 = .ok (some ("ROT", parsedDict envW rotV1)) ∧
    (addOut envW cfg0 rotV1 "gps" (some 0)).rot.map (fun m => m.ang_z) =
      [some (((getI (parsedDict envW rotV1) "rate" : ℤ) : ℚ) * (3.14 : ℚ) / 180 * 60)] :=
  ⟨by decide, rfl,
   (C7_rot_rate_amended envW cfg0 rotV1 "gps" (some 0) none
      (addOut envW cfg0 rotV1 "gps" (some 0)) (parsedDict envW rotV1)
      (by decide) rfl rfl).1⟩
